import Mathlib

/-!
Shallow embedding of the AnyWork control plane (searle-dev/anywork).

The definitions below are translated from the TypeScript source:
  * `server/src/db/tasks.ts`      — task records, `updateTask`, task logs,
    `getTaskLogs`, `getTaskLogCount`;
  * `server/src/task/dispatcher.ts` — `dispatch`, `handleWorkerStream`,
    `sendPushNotification`;
  * `server/src/routes/tasks.ts`  — the `GET /:taskId/logs` handler and the
    cancel handler, plus the channel webhook route;
  * `server/src/ws/handler.ts`    — `handleChat`;
  * `server/src/channel/webchat.ts` — the interactive channel.

Effectful boundaries (the container driver, `fetch`, the worker's SSE body,
`JSON.parse` of event payloads, WebSocket liveness, clocks and generated
UUIDs) are passed in as explicit environment values, so every run of the
model is a pure computation.  JavaScript string operations used by the
stream parser (`split("\n")`, `startsWith`, `slice`, `trim`) are modelled
structurally over `List Char` so that concrete runs reduce in the kernel.
-/

namespace AnyWork

/-- Task status values, from the `status` column of the `tasks` table
(`'pending' | 'running' | 'input_required' | 'completed' | 'failed' |
'canceled'`). -/
inductive TaskStatus
  | pending
  | running
  | input_required
  | completed
  | failed
  | canceled
deriving DecidableEq, Repr

/-- An MCP tool-bridge config, from `channel/types.ts` (`MCPServerConfig`).
The `env` record field is modelled as an association list. -/
structure MCPServerConfig where
  name : String
  transport : String
  command : Option String := none
  args : Option (List String) := none
  env : Option (List (String × String)) := none
  url : Option String := none
deriving DecidableEq, Repr

/-- A push-notification descriptor, from the `pushNotification` field of
`TaskRequest` (`channel/types.ts`). -/
structure PushConfig where
  webhookUrl : String
  authHeader : Option String := none
  events : Option (List String) := none
deriving DecidableEq, Repr

/-- A row of the `tasks` table (`TaskRecord` in `db/tasks.ts`).  The JSON
text columns `skills` / `mcp_servers` / `push_notification` are modelled by
their parsed values, which is how the dispatcher consumes them
(`JSON.parse(task.skills || "[]")`). -/
structure TaskRecord where
  id : String
  session_id : String
  channel_type : String
  channel_meta : String
  status : TaskStatus
  message : String
  skills : List String
  mcp_servers : List MCPServerConfig
  result : Option String
  structured_output : Option String
  error : Option String
  cost_usd : Option Nat
  num_turns : Option Nat
  duration_ms : Option Nat
  worker_id : Option String
  push_notification : Option PushConfig
  created_at : Nat
  started_at : Option Nat
  finished_at : Option Nat
deriving DecidableEq, Repr

/-- The partial-update argument of `updateTask` (`db/tasks.ts`): each field
is present (`some`) or absent (`none`, i.e. `undefined` in JS, filtered out
by the `value !== undefined` check).  `result` may also be set to SQL NULL
(`some none`), because the dispatcher passes `result: lastResult || null`. -/
structure TaskUpdate where
  status : Option TaskStatus := none
  result : Option (Option String) := none
  structured_output : Option String := none
  error : Option String := none
  cost_usd : Option Nat := none
  num_turns : Option Nat := none
  duration_ms : Option Nat := none
  worker_id : Option String := none
  started_at : Option Nat := none
  finished_at : Option Nat := none
deriving DecidableEq, Repr

/-- `updateTask` from `db/tasks.ts`: an unconditional SQL
`UPDATE tasks SET ... WHERE id = ?` that overwrites exactly the provided
fields.  There is no guard on the current status. -/
def updateTask (t : TaskRecord) (u : TaskUpdate) : TaskRecord :=
  { t with
    status := u.status.getD t.status
    result := u.result.getD t.result
    structured_output :=
      match u.structured_output with
      | some s => some s
      | none => t.structured_output
    error := match u.error with | some e => some e | none => t.error
    cost_usd := match u.cost_usd with | some c => some c | none => t.cost_usd
    num_turns := match u.num_turns with | some n => some n | none => t.num_turns
    duration_ms := match u.duration_ms with | some d => some d | none => t.duration_ms
    worker_id := match u.worker_id with | some w => some w | none => t.worker_id
    started_at := match u.started_at with | some s => some s | none => t.started_at
    finished_at := match u.finished_at with | some f => some f | none => t.finished_at }

/-- A row of the `task_logs` table (`TaskLogEntry` in `db/tasks.ts`),
without the `task_id` column: the model keeps each task's logs in its own
list. -/
structure LogEntry where
  seq : Nat
  type : String
  content : String
  metadata : String
  timestamp : Nat
deriving DecidableEq, Repr

/-- `insertTaskLog` from `db/tasks.ts`: appends a row with the caller-chosen
`seq` to the task's log. -/
def insertTaskLog (logs : List LogEntry) (e : LogEntry) : List LogEntry :=
  logs ++ [e]

/-- `getTaskLogCount` from `db/tasks.ts`:
`SELECT COUNT(*) FROM task_logs WHERE task_id = ?`. -/
def getTaskLogCount (logs : List LogEntry) : Nat :=
  logs.length

/-- Insert an entry into a seq-sorted list (helper for the `ORDER BY seq
ASC` clause of `getTaskLogs`). -/
def insertBySeq (e : LogEntry) : List LogEntry → List LogEntry
  | [] => [e]
  | x :: xs => if e.seq ≤ x.seq then e :: x :: xs else x :: insertBySeq e xs

/-- Sort a list of log rows by `seq` ascending (the `ORDER BY seq ASC`
clause of `getTaskLogs`). -/
def sortBySeq (l : List LogEntry) : List LogEntry :=
  l.foldr insertBySeq []

/-- `getTaskLogs` from `db/tasks.ts`:
`SELECT * FROM task_logs WHERE task_id = ? AND seq > ? ORDER BY seq ASC
LIMIT ?`.  `afterSeq` is an `Int` because the route parses it from a query
string with `parseInt`. -/
def getTaskLogs (logs : List LogEntry) (afterSeq : Int) (limit : Nat) :
    List LogEntry :=
  (sortBySeq (logs.filter fun e => afterSeq < (e.seq : Int))).take limit

/-- `parseInt(q) || d` in the route handlers: an absent / unparsable query
parameter, and also an explicit `0`, fall back to the default. -/
def jsParseIntOr (q : Option Int) (d : Int) : Int :=
  match q with
  | none => d
  | some n => if n = 0 then d else n

/-- The JSON body of `GET /api/tasks/:taskId/logs` (`routes/tasks.ts`). -/
structure LogsResponse where
  logs : List LogEntry
  hasMore : Bool
deriving DecidableEq, Repr

/-- The `GET /:taskId/logs` handler from `routes/tasks.ts`:
`after = parseInt(req.query.after) || 0`,
`limit = Math.min(parseInt(req.query.limit) || 100, 500)`, then
`logs = getTaskLogs(id, after, limit)`, `total = getTaskLogCount(id)`, and
`hasMore = logs.length > 0 ? logs[logs.length - 1].seq < total : false`. -/
def getLogsRoute (logs : List LogEntry) (afterQ limitQ : Option Int) :
    LogsResponse :=
  let after := jsParseIntOr afterQ 0
  let limit := min (jsParseIntOr limitQ 100) 500
  let page := getTaskLogs logs after limit.toNat
  let total := getTaskLogCount logs
  { logs := page
    hasMore :=
      match page.getLast? with
      | some e => decide (e.seq < total)
      | none => false }

/-! ### JavaScript string operations

The SSE parser in `handleWorkerStream` uses `buffer.split("\n")`,
`line.startsWith(p)`, `line.slice(n)` and `.trim()`.  They are modelled
structurally over the character list of the string. -/

/-- JS `s.startsWith(p)`. -/
def jsStartsWith (s p : String) : Bool :=
  p.data.isPrefixOf s.data

/-- JS `s.slice(n)` for a non-negative `n`. -/
def jsSlice (s : String) (n : Nat) : String :=
  String.mk (s.data.drop n)

/-- JS whitespace for `trim` (the ASCII part, which is all the parser ever
meets in `event:` / `data:` lines). -/
def jsIsSpace (c : Char) : Bool :=
  c = ' ' ∨ c = '\t' ∨ c = '\n' ∨ c = '\r'

/-- JS `s.trim()`. -/
def jsTrim (s : String) : String :=
  String.mk (((s.data.dropWhile jsIsSpace).reverse.dropWhile jsIsSpace).reverse)

/-- Split a character list at `'\n'`; never returns `[]`, matching JS
`"".split("\n") = [""]`. -/
def splitNlChars : List Char → List (List Char)
  | [] => [[]]
  | c :: cs =>
    if c = '\n' then [] :: splitNlChars cs
    else
      match splitNlChars cs with
      | [] => [[c]]
      | l :: ls => (c :: l) :: ls

/-- JS `s.split("\n")`. -/
def jsSplitNl (s : String) : List String :=
  (splitNlChars s.data).map String.mk

/-! ### Worker SSE stream handling (`handleWorkerStream` in
`task/dispatcher.ts`) -/

/-- Outcome of `JSON.parse` on a `data:` payload, restricted to what the
dispatcher reads from it: `none` models a thrown parse error, and
`some (content?, metadata?)` models a parsed object with its optional
`content` string and its optional `metadata` object (kept as its JSON
text, which is what `JSON.stringify` later persists). -/
abbrev JsonParse := String → Option (Option String × Option String)

/-- `content = parsed.content ?? dataStr; metadata = parsed.metadata ?? {}`
with the `catch { content = dataStr }` fallback of the dispatcher. -/
def decodeData (jp : JsonParse) (dataStr : String) : String × String :=
  match jp dataStr with
  | none => (dataStr, "{}")
  | some (c, m) => (c.getD dataStr, m.getD "{}")

/-- The live WebSocket subscriber: `none` models no `ws` argument, and
`some f` models an attached socket whose `readyState === OPEN` check at the
`n`-th successful send so far returns `f n` (so the peer may close at any
point mid-stream). -/
abbrev Subscriber := Option (Nat → Bool)

/-- The `ws && ws.readyState === ws.OPEN` check. -/
def subOpen (sub : Subscriber) (n : Nat) : Bool :=
  match sub with
  | none => false
  | some f => f n

/-- A JSON frame written to the WebSocket with `ws.send`. -/
structure WsFrame where
  type : String
  content : Option String := none
  metadata : Option String := none
  session_id : Option String := none
deriving DecidableEq, Repr

/-- The mutable state of one `handleWorkerStream` run: the local variables
`seq`, `buffer`, `lastResult`, plus the task's DB row, its `task_logs`
rows and the frames sent to the subscriber. -/
structure StreamState where
  seq : Nat
  buffer : String
  lastResult : String
  task : TaskRecord
  logs : List LogEntry
  sent : List WsFrame
deriving DecidableEq, Repr

/-- `lastResult || null` (empty string is falsy in JS). -/
def strOrNull (s : String) : Option String :=
  if s = "" then none else some s

/-- The per-line `eventType` variable together with the stream state.  In
the source `eventType` is declared afresh (as `""`) for each chunk read
from the body. -/
structure LineState where
  eventType : String
  st : StreamState
deriving DecidableEq, Repr

/-- The body of the `data:` branch of the line loop for an accepted event
(`eventType` and the trimmed payload both non-empty): decode the payload,
append a `task_logs` row with the next `seq`, forward a frame to the
subscriber when it is attached and open (the forwarded `session_id` is
read back from the task row, which no update of this loop ever changes),
accumulate `text` content into `lastResult`, and apply the `done` /
`error` status updates through `updateTask`. -/
def processDataEvent (jp : JsonParse) (sub : Subscriber) (now : Nat)
    (eventType dataStr : String) (st : StreamState) : StreamState :=
  let cm := decodeData jp dataStr
  let s1 := { st with
    logs := insertTaskLog st.logs
      ({ seq := st.seq, type := eventType, content := cm.1,
         metadata := cm.2, timestamp := now })
    seq := st.seq + 1 }
  let s2 :=
    if subOpen sub s1.sent.length then
      { s1 with sent := s1.sent ++
        [{ type := eventType, content := some cm.1,
           metadata := some cm.2,
           session_id := some s1.task.session_id }] }
    else s1
  let s3 :=
    if eventType = "text" then
      { s2 with lastResult := s2.lastResult ++ cm.1 }
    else s2
  if eventType = "done" then
    let u : TaskUpdate :=
      { status := some .completed,
        result := some (strOrNull s3.lastResult),
        finished_at := some now }
    { s3 with task := updateTask s3.task u }
  else if eventType = "error" then
    let u : TaskUpdate :=
      { status := some .failed, error := some cm.1,
        finished_at := some now }
    { s3 with task := updateTask s3.task u }
  else s3

/-- One iteration of the `for (const line of lines)` loop of
`handleWorkerStream`.  An `event:` line records the trimmed event type; a
`data:` line with a non-empty trimmed payload and a pending non-empty
event type is processed by `processDataEvent` and resets `eventType`;
every other line (including the skipped `data:` lines) is ignored. -/
def processLine (jp : JsonParse) (sub : Subscriber) (now : Nat)
    (ls : LineState) (line : String) : LineState :=
  if jsStartsWith line "event:" then
    { ls with eventType := jsTrim (jsSlice line 6) }
  else if jsStartsWith line "data:" then
    let dataStr := jsTrim (jsSlice line 5)
    if ls.eventType = "" ∨ dataStr = "" then ls
    else
      { eventType := "",
        st := processDataEvent jp sub now ls.eventType dataStr ls.st }
  else ls

/-- One iteration of the `while (true)` read loop: append the chunk to the
carried buffer, split on newlines, keep the last (possibly incomplete)
piece as the new buffer, and run the line loop with a fresh `eventType`. -/
def processChunk (jp : JsonParse) (sub : Subscriber) (now : Nat)
    (st : StreamState) (chunk : String) : StreamState :=
  let lines := jsSplitNl (st.buffer ++ chunk)
  let ls := lines.dropLast.foldl (processLine jp sub now)
    { eventType := "", st := st }
  { ls.st with buffer := (lines.getLast?).getD "" }

/-- The fresh state at the top of `handleWorkerStream`
(`seq = 0`, `buffer = ""`, `lastResult = ""`, no rows written yet). -/
def initStreamState (task : TaskRecord) : StreamState :=
  { seq := 0, buffer := "", lastResult := "", task := task, logs := [],
    sent := [] }

/-- The fallback after the read loop: if the stream ended without an
explicit terminal event (task still `running`), mark the task completed
with the accumulated text. -/
def streamEndFallback (now : Nat) (st : StreamState) : StreamState :=
  if st.task.status = .running then
    let u : TaskUpdate :=
      { status := some .completed, result := some (strOrNull st.lastResult),
        finished_at := some now }
    { st with task := updateTask st.task u }
  else st

/-- `handleWorkerStream` from `task/dispatcher.ts`.  `body` is the response
body: `none` models a missing body (immediately marked completed), and
`some chunks` the successive decoded reads of the SSE stream. -/
def handleWorkerStream (jp : JsonParse) (sub : Subscriber) (now : Nat)
    (task : TaskRecord) (body : Option (List String)) : StreamState :=
  match body with
  | none =>
    let u : TaskUpdate := { status := some .completed, finished_at := some now }
    { initStreamState task with task := updateTask task u }
  | some chunks =>
    streamEndFallback now
      (chunks.foldl (processChunk jp sub now) (initStreamState task))

/-! ### Dispatcher (`dispatch` in `task/dispatcher.ts`) -/

/-- A worker endpoint, from the container driver
(`driver.getWorkerEndpoint`). -/
structure Endpoint where
  url : String
  containerId : String
deriving DecidableEq, Repr

/-- The parts of a `fetch` response the dispatcher reads: `ok`, `status`
and the awaited body text. -/
structure HttpResp where
  ok : Bool
  status : Nat
  text : String
deriving DecidableEq, Repr

/-- A registered channel, from `channel/types.ts`: its type key, its
declared defaults, and whether the optional `deliver` capability is
present. -/
structure Channel where
  type : String
  defaultSkills : List String
  defaultMcpServers : List MCPServerConfig
  hasDeliver : Bool
deriving Repr

/-- Everything effectful one `dispatch` run touches, fixed up front:
the driver acquire, the `/prepare` and `/chat` fetches (`Except.error`
models a thrown exception, e.g. a timeout), the `channel.deliver` call,
the payload JSON parser, the live subscriber, and the clock. -/
structure DispatchEnv where
  acquire : Except String Endpoint
  prepareRes : Except String HttpResp
  chatRes : Except String (HttpResp × Option (List String))
  deliverRes : Except String Unit
  jp : JsonParse
  sub : Subscriber
  now : Nat

/-- The observable outcome of one `dispatch` run: the final task row, the
persisted log rows, the frames sent over the WebSocket, and whether
`channel.deliver` / the push notification were invoked. -/
structure DispatchResult where
  task : TaskRecord
  logs : List LogEntry
  sent : List WsFrame
  deliverCalled : Bool
  pushCalled : Bool
deriving Repr

/-- The error message thrown on a non-ok `/prepare` response:
`` `Worker /prepare failed: ${prepareRes.status} ${await prepareRes.text()}` ``. -/
def prepareFailMsg (status : Nat) (text : String) : String :=
  ("Worker /prepare failed: " ++ toString status ++ " ") ++ text

/-- The error message thrown on a non-ok `/chat` response. -/
def chatFailMsg (status : Nat) (text : String) : String :=
  ("Worker /chat failed: " ++ toString status ++ " ") ++ text

/-- Step 2 of `dispatch`: the `/prepare` call, made only when the task
carries skills or MCP configs.  Returns the thrown error message, if any. -/
def prepareOutcome (env : DispatchEnv) (task : TaskRecord) : Option String :=
  if task.skills ≠ [] ∨ task.mcp_servers ≠ [] then
    match env.prepareRes with
    | .error m => some m
    | .ok r => if r.ok then none else some (prepareFailMsg r.status r.text)
  else none

/-- The `catch` block of `dispatch`: mark the task failed with the error
message, and when the WebSocket client is attached and open, send it a
synthetic `error` frame followed by a synthetic `done` frame.  Delivery
and push are skipped. -/
def dispatchCatch (env : DispatchEnv) (sid : String) (cur : TaskRecord)
    (m : String) (logs : List LogEntry) (sent : List WsFrame)
    (deliverCalled : Bool) : DispatchResult :=
  let u : TaskUpdate :=
    { status := some .failed, error := some m, finished_at := some env.now }
  let sent' :=
    if subOpen env.sub sent.length then
      sent ++ [{ type := "error", content := some m, session_id := some sid },
               { type := "done", session_id := some sid }]
    else sent
  { task := updateTask cur u, logs := logs, sent := sent',
    deliverCalled := deliverCalled, pushCalled := false }

/-- Step 1 of `dispatch` after acquiring the endpoint:
`updateTask(task.id, {status:"running", worker_id: endpoint.containerId,
started_at: now()})`. -/
def runningUpdate (env : DispatchEnv) (task : TaskRecord) (ep : Endpoint) :
    TaskRecord :=
  updateTask task
    { status := some .running, worker_id := some ep.containerId,
      started_at := some env.now }

/-- `finished?.push_notification` followed by `if (config.webhookUrl)`:
the push notification fires iff the task has a push descriptor with a
truthy URL (`sendPushNotification` swallows its own errors). -/
def pushWanted (t : TaskRecord) : Bool :=
  match t.push_notification with
  | some cfg => cfg.webhookUrl ≠ ""
  | none => false

/-- `dispatch` from `task/dispatcher.ts`: acquire a worker, mark the task
running, `/prepare` when needed, `/chat`, consume the SSE stream, then
deliver (when the channel defines `deliver` and the task completed) and
push.  Any exception up to and including `deliver` lands in the `catch`
block. -/
def dispatch (env : DispatchEnv) (ch : Channel) (task : TaskRecord) :
    DispatchResult :=
  match env.acquire with
  | .error m => dispatchCatch env task.session_id task m [] [] false
  | .ok ep =>
    let t1 := runningUpdate env task ep
    match prepareOutcome env task with
    | some m => dispatchCatch env task.session_id t1 m [] [] false
    | none =>
      match env.chatRes with
      | .error m => dispatchCatch env task.session_id t1 m [] [] false
      | .ok (r, body) =>
        if r.ok then
          let st := handleWorkerStream env.jp env.sub env.now t1 body
          if ch.hasDeliver = true ∧ st.task.status = .completed then
            match env.deliverRes with
            | .error m =>
              dispatchCatch env task.session_id st.task m st.logs st.sent true
            | .ok _ =>
              { task := st.task, logs := st.logs, sent := st.sent,
                deliverCalled := true, pushCalled := pushWanted st.task }
          else
            { task := st.task, logs := st.logs, sent := st.sent,
              deliverCalled := false, pushCalled := pushWanted st.task }
        else
          dispatchCatch env task.session_id t1 (chatFailMsg r.status r.text)
            [] [] false

/-! ### Cancellation (`POST /:taskId/cancel` in `routes/tasks.ts`) -/

/-- The status guard of the cancel handler: a 409 is returned unless the
task is `running`, `pending` or `input_required`. -/
def cancelAllowed (t : TaskRecord) : Bool :=
  decide (t.status = .running ∨ t.status = .pending ∨
    t.status = .input_required)

/-- The state change of the cancel handler (after the best-effort,
error-swallowing `/cancel` call to the worker):
`updateTask(task.id, {status:"canceled", finished_at: now})`. -/
def cancelTask (now : Nat) (t : TaskRecord) : TaskRecord :=
  updateTask t { status := some .canceled, finished_at := some now }

/-! ### Task creation: webhook ingress and duplex chat ingress -/

/-- The unified `TaskRequest` produced by `channel.toTaskRequest`
(`channel/types.ts`). -/
structure TaskRequest where
  sessionId : String
  channelType : String
  channelMeta : String
  message : String
  skills : List String
  mcpServers : List MCPServerConfig
  pushNotification : Option PushConfig := none
deriving Repr

/-- `createTask` from `db/tasks.ts`: inserts a row whose `status` takes the
schema default `'pending'`, with `result`/`error`/timestamps NULL. -/
def createTask (id sessionId channelType channelMeta message : String)
    (skills : List String) (mcpServers : List MCPServerConfig)
    (pushNotification : Option PushConfig) (now : Nat) : TaskRecord :=
  { id := id, session_id := sessionId, channel_type := channelType,
    channel_meta := channelMeta, status := .pending, message := message,
    skills := skills, mcp_servers := mcpServers, result := none,
    structured_output := none, error := none, cost_usd := none,
    num_turns := none, duration_ms := none, worker_id := none,
    push_notification := pushNotification, created_at := now,
    started_at := none, finished_at := none }

/-- Steps 3–5 of the webhook route (`routes/channel.ts`): merge the channel
defaults in front of the request lists and create the task. -/
def webhookCreateTask (id : String) (now : Nat) (ch : Channel)
    (req : TaskRequest) : TaskRecord :=
  createTask id req.sessionId req.channelType req.channelMeta req.message
    (ch.defaultSkills ++ req.skills) (ch.defaultMcpServers ++ req.mcpServers)
    req.pushNotification now

/-- The interactive channel (`channel/webchat.ts`): empty defaults, no
`deliver`. -/
def webChatChannel : Channel :=
  { type := "webchat", defaultSkills := [], defaultMcpServers := [],
    hasDeliver := false }

/-- An inbound WebSocket frame (`ClientMessage` in `ws/handler.ts`);
optional fields are absent (`none`) or present. -/
structure ClientMessage where
  type : String
  session_id : Option String := none
  message : Option String := none
  skills : Option (List String) := none
  mcp_servers : Option (List MCPServerConfig) := none

/-- JS falsiness of an optional string field: absent (`undefined`) or the
empty string. -/
def jsFalsy : Option String → Bool
  | none => true
  | some s => s = ""

/-- `webChatChannel.toTaskRequest` (`channel/webchat.ts`): `null` when
`msg.message` is falsy, otherwise the translated request with
`?? []` / `?? ""` defaults. -/
def webChatToTaskRequest (msg : ClientMessage) : Option TaskRequest :=
  if jsFalsy msg.message then none
  else
    some { sessionId := msg.session_id.getD "", channelType := "webchat",
           channelMeta := "{}", message := msg.message.getD "",
           skills := msg.skills.getD [],
           mcpServers := msg.mcp_servers.getD [],
           pushNotification := none }

/-- Environment of one `handleChat` call (`ws/handler.ts`): the two
generated UUIDs, the `ws.readyState === OPEN` check at the n-th
`sendMessage` attempt, and the dispatch environment. -/
structure ChatEnv where
  freshId : String
  taskId : String
  wsOpen : Nat → Bool
  denv : DispatchEnv

/-- The observable outcome of one `handleChat` call: session rows inserted
(`(id, channel_type)`), frames sent by `sendMessage`, the created task row
(if any) and the dispatch outcome (if reached). -/
structure ChatResult where
  sessions : List (String × String)
  frames : List WsFrame
  createdTask : Option TaskRecord
  dres : Option DispatchResult

/-- `sendMessage` from `ws/handler.ts`: sends only when
`ws.readyState === OPEN`. -/
def wsSendChecked (wsOpen : Nat → Bool) (frames : List WsFrame)
    (f : WsFrame) : List WsFrame :=
  if wsOpen frames.length then frames ++ [f] else frames

/-- `handleChat` from `ws/handler.ts`: auto-create a session (and send
`session_created`) when `session_id` is falsy, *then* validate `message`;
on a falsy message send an `error` frame and return.  Otherwise translate
through the webchat channel, merge the channel defaults, create the task
and dispatch it with this socket as the live subscriber.  The
fire-and-forget title generator only touches the session title and a
side-channel `session_title` frame and is not modelled. -/
def handleChat (env : ChatEnv) (msg : ClientMessage) : ChatResult :=
  let isNewSession := jsFalsy msg.session_id
  let sessions : List (String × String) :=
    if isNewSession then [(env.freshId, "webchat")] else []
  let frames :=
    if isNewSession then
      wsSendChecked env.wsOpen []
        { type := "session_created", session_id := some env.freshId }
    else []
  let sessionId := if isNewSession then env.freshId else msg.session_id.getD ""
  if jsFalsy msg.message then
    { sessions := sessions
      frames := wsSendChecked env.wsOpen frames
        { type := "error", content := some "Empty message" }
      createdTask := none, dres := none }
  else
    match webChatToTaskRequest msg with
    | none =>
      { sessions := sessions
        frames := wsSendChecked env.wsOpen frames
          { type := "error", content := some "Invalid message" }
        createdTask := none, dres := none }
    | some req0 =>
      let req := { req0 with sessionId := sessionId }
      let task := createTask env.taskId sessionId "webchat" "{}"
        (msg.message.getD "")
        (webChatChannel.defaultSkills ++ req.skills)
        (webChatChannel.defaultMcpServers ++ req.mcpServers) none env.denv.now
      let dres := dispatch env.denv webChatChannel task
      { sessions := sessions, frames := frames, createdTask := some task,
        dres := some dres }

/-! ### General helper lemmas -/

/-- A predicate preserved by each step of a fold is preserved by the whole
fold. -/
theorem foldl_preserve {α σ : Type} (P : σ → Prop) (f : σ → α → σ)
    (h : ∀ s a, P s → P (f s a)) :
    ∀ (l : List α) (s : σ), P s → P (l.foldl f s)
  | [], _, hs => hs
  | a :: l, s, hs => foldl_preserve P f h l (f s a) (h s a hs)

/-- A relation preserved by parallel steps of two folds over the same list
is preserved by the whole folds. -/
theorem foldl_rel {α σ : Type} (R : σ → σ → Prop) (f g : σ → α → σ)
    (h : ∀ s t a, R s t → R (f s a) (g t a)) :
    ∀ (l : List α) (s t : σ), R s t → R (l.foldl f s) (l.foldl g t)
  | [], _, _, hs => hs
  | a :: l, s, t, hs => foldl_rel R f g h l (f s a) (g t a) (h s t a hs)

/-! ### Lemmas about the stream handler -/

/-- `processDataEvent` appends exactly one log row, carrying the current
`seq` counter, and increments the counter. -/
theorem processDataEvent_logs (jp : JsonParse) (sub : Subscriber) (now : Nat)
    (et ds : String) (st : StreamState) :
    (processDataEvent jp sub now et ds st).logs
      = st.logs ++ [⟨st.seq, et, (decodeData jp ds).1,
          (decodeData jp ds).2, now⟩] ∧
    (processDataEvent jp sub now et ds st).seq = st.seq + 1 := by
  constructor <;>
    (simp only [processDataEvent, insertTaskLog]
     repeat' split
     all_goals rfl)

/-- Each line either leaves the log and the `seq` counter untouched, or
appends one row carrying the current counter value and increments it. -/
theorem processLine_shape (jp : JsonParse) (sub : Subscriber) (now : Nat)
    (ls : LineState) (line : String) :
    ((processLine jp sub now ls line).st.logs = ls.st.logs ∧
      (processLine jp sub now ls line).st.seq = ls.st.seq) ∨
    ((processLine jp sub now ls line).st.logs
        = ls.st.logs ++ [⟨ls.st.seq, ls.eventType,
            (decodeData jp (jsTrim (jsSlice line 5))).1,
            (decodeData jp (jsTrim (jsSlice line 5))).2, now⟩] ∧
      (processLine jp sub now ls line).st.seq = ls.st.seq + 1) := by
  rw [processLine]
  split
  · left; exact ⟨rfl, rfl⟩
  · split
    · dsimp only
      split
      · left; exact ⟨rfl, rfl⟩
      · right
        exact processDataEvent_logs jp sub now ls.eventType _ ls.st
    · left; exact ⟨rfl, rfl⟩

/-- The density invariant: the `seq` counter equals the number of rows
written so far, and the rows carry exactly the seqs `0, 1, …`. -/
def SeqInv (st : StreamState) : Prop :=
  st.seq = st.logs.length ∧
  st.logs.map LogEntry.seq = List.range st.logs.length

/-- `processLine` preserves the density invariant. -/
theorem processLine_seqInv (jp : JsonParse) (sub : Subscriber) (now : Nat)
    (ls : LineState) (line : String) (h : SeqInv ls.st) :
    SeqInv (processLine jp sub now ls line).st := by
  obtain ⟨h1, h2⟩ := h
  rcases processLine_shape jp sub now ls line with ⟨hl, hs⟩ | ⟨hl, hs⟩
  · exact ⟨by rw [hl, hs, h1], by rw [hl]; exact h2⟩
  · constructor
    · rw [hl, hs, h1]; simp
    · rw [hl, List.map_append, h2, h1]
      simp [List.range_succ]

/-- `processChunk` preserves the density invariant. -/
theorem processChunk_seqInv (jp : JsonParse) (sub : Subscriber) (now : Nat)
    (st : StreamState) (chunk : String) (h : SeqInv st) :
    SeqInv (processChunk jp sub now st chunk) := by
  rw [processChunk]
  exact foldl_preserve (fun ls : LineState => SeqInv ls.st)
    (processLine jp sub now)
    (fun s a hs => processLine_seqInv jp sub now s a hs)
    (jsSplitNl (st.buffer ++ chunk)).dropLast { eventType := "", st := st } h

/-- The stream-end fallback never touches the log. -/
theorem streamEndFallback_logs (now : Nat) (st : StreamState) :
    (streamEndFallback now st).logs = st.logs := by
  rw [streamEndFallback]; split <;> rfl

/-- Equality of two stream states on everything except the frames sent to
the subscriber. -/
def coreEq (a b : StreamState) : Prop :=
  a.seq = b.seq ∧ a.buffer = b.buffer ∧ a.lastResult = b.lastResult ∧
  a.task = b.task ∧ a.logs = b.logs

/-- `processDataEvent` under two different subscribers preserves `coreEq`:
the subscriber check only gates what is appended to `sent`. -/
theorem processDataEvent_coreEq (jp : JsonParse) (sub1 sub2 : Subscriber)
    (now : Nat) (et ds : String) (a b : StreamState) (h : coreEq a b) :
    coreEq (processDataEvent jp sub1 now et ds a)
      (processDataEvent jp sub2 now et ds b) := by
  obtain ⟨h1, h2, h3, h4, h5⟩ := h
  simp only [processDataEvent, insertTaskLog]
  repeat' split
  all_goals
    exact ⟨by simp [h1], by simp [h2], by simp [h3], by simp [h3, h4],
           by simp [h1, h5]⟩

/-- Equality of two line states up to the frames sent. -/
def lineEq (a b : LineState) : Prop :=
  a.eventType = b.eventType ∧ coreEq a.st b.st

/-- `processLine` under two different subscribers preserves `lineEq`. -/
theorem processLine_lineEq (jp : JsonParse) (sub1 sub2 : Subscriber)
    (now : Nat) (a b : LineState) (line : String) (h : lineEq a b) :
    lineEq (processLine jp sub1 now a line)
      (processLine jp sub2 now b line) := by
  obtain ⟨he, hc⟩ := h
  rw [processLine, processLine]
  split
  · exact ⟨rfl, hc⟩
  · split
    · dsimp only
      rw [he]
      split
      · exact ⟨he, hc⟩
      · exact ⟨rfl, processDataEvent_coreEq jp sub1 sub2 now _ _ _ _ hc⟩
    · exact ⟨he, hc⟩

/-- `processChunk` under two different subscribers preserves `coreEq`. -/
theorem processChunk_coreEq (jp : JsonParse) (sub1 sub2 : Subscriber)
    (now : Nat) (a b : StreamState) (chunk : String) (h : coreEq a b) :
    coreEq (processChunk jp sub1 now a chunk)
      (processChunk jp sub2 now b chunk) := by
  obtain ⟨h1, h2, h3, h4, h5⟩ := h
  rw [processChunk, processChunk, h2]
  have hfold := foldl_rel lineEq (processLine jp sub1 now)
    (processLine jp sub2 now)
    (fun s t l hst => processLine_lineEq jp sub1 sub2 now s t l hst)
    (jsSplitNl (b.buffer ++ chunk)).dropLast
    { eventType := "", st := a } { eventType := "", st := b }
    ⟨rfl, h1, h2, h3, h4, h5⟩
  obtain ⟨_, k1, _, k3, k4, k5⟩ := hfold
  exact ⟨k1, rfl, k3, k4, k5⟩

/-- The stream-end fallback preserves `coreEq`. -/
theorem streamEndFallback_coreEq (now : Nat) (a b : StreamState)
    (h : coreEq a b) :
    coreEq (streamEndFallback now a) (streamEndFallback now b) := by
  obtain ⟨h1, h2, h3, h4, h5⟩ := h
  rw [streamEndFallback, streamEndFallback, h4, h3]
  split
  · exact ⟨h1, h2, rfl, rfl, h5⟩
  · exact ⟨h1, h2, h3, h4, h5⟩

/-- An `event: done` line only records the event type. -/
theorem processLine_event_done (jp : JsonParse) (sub : Subscriber)
    (now : Nat) (ls : LineState) :
    processLine jp sub now ls "event: done"
      = { ls with eventType := "done" } := by
  rw [processLine, if_pos]
  · rfl
  · decide

/-- A data event with type `done` marks the task completed, whatever the
payload parses to. -/
theorem processDataEvent_done_status (jp : JsonParse) (sub : Subscriber)
    (now : Nat) (ds : String) (st : StreamState) :
    (processDataEvent jp sub now "done" ds st).task.status = .completed := by
  simp only [processDataEvent]
  repeat' split
  all_goals first | rfl | simp_all

/-- A `data: x` line under a pending `done` event type marks the task
completed. -/
theorem processLine_data_done (jp : JsonParse) (sub : Subscriber)
    (now : Nat) (ls : LineState) (h : ls.eventType = "done") :
    (processLine jp sub now ls "data: x").st.task.status = .completed := by
  rw [processLine, if_neg (by decide), if_pos (by decide)]
  dsimp only
  rw [if_neg (by rw [h]; decide)]
  dsimp only
  rw [h]
  exact processDataEvent_done_status jp sub now _ ls.st

/-! ### Concrete fixtures -/

/-- `JSON.parse` restricted to payloads that are not valid JSON: it throws,
and the dispatcher falls back to the raw string.  All concrete payloads
used below (`x`, `hi`) are of this kind. -/
def jsonParseFail : JsonParse := fun _ => none

/-- A concrete running task, as left by step 1 of `dispatch`. -/
def demoTask : TaskRecord :=
  { id := "task-1", session_id := "sess-1", channel_type := "webchat",
    channel_meta := "{}", status := .running, message := "hi",
    skills := [], mcp_servers := [], result := none,
    structured_output := none, error := none, cost_usd := none,
    num_turns := none, duration_ms := none, worker_id := some "c-1",
    push_notification := none, created_at := 1, started_at := some 2,
    finished_at := none }

/-- The log rows the dispatcher persists for a worker stream with one
`text` event followed by one `done` event. -/
def twoEventLogs : List LogEntry :=
  (handleWorkerStream jsonParseFail none 5 demoTask
    (some ["event: text\ndata: hi\n\nevent: done\ndata: x\n\n"])).logs

/-- The log rows the dispatcher persists for a worker stream with a single
`text` event. -/
def oneEventLogs : List LogEntry :=
  (handleWorkerStream jsonParseFail none 5 demoTask
    (some ["event: text\ndata: hi\n\n"])).logs

/-- A mid-stream state of `handleWorkerStream` for `demoTask`, right after
the cancel handler ran (the task row now reads `canceled`), with one log
row already written and the `done` event still to come. -/
def canceledMidStream : StreamState :=
  { seq := 1, buffer := "", lastResult := "hi",
    task := cancelTask 4 demoTask,
    logs := [{ seq := 0, type := "text", content := "hi", metadata := "{}",
               timestamp := 3 }],
    sent := [] }

/-! ### Claim C1 — cancellation stickiness -/

/-- C1 (counterexample): cancellation is *not* sticky.  `demoTask` is
running, so the cancel handler accepts it and marks it `canceled`; the
worker's in-flight stream then delivers a `done` event, and the
unconditional `updateTask` in `handleWorkerStream` flips the status to
`completed`. -/
theorem cancel_not_sticky_counterexample :
    cancelAllowed demoTask = true ∧
    canceledMidStream.task.status = .canceled ∧
    (processChunk jsonParseFail none 5 canceledMidStream
      "event: done\ndata: x\n").task.status = .completed ∧
    (processChunk jsonParseFail none 5 canceledMidStream
      "event: done\ndata: x\n").task.status ≠ .canceled := by
  decide

/-- C1 (amended): after the cancel handler sets `canceled`, a subsequently
received `done` stream event *changes* the status to `completed` — the
`done` branch of `handleWorkerStream` updates unconditionally.  Only the
stream-end fallback is guarded (`status === "running"`) and leaves
`canceled` intact. -/
theorem done_event_overrides_canceled (jp : JsonParse) (sub : Subscriber)
    (now : Nat) (st : StreamState) (hc : st.task.status = .canceled)
    (hbuf : st.buffer = "") :
    (processChunk jp sub now st "event: done\ndata: x\n").task.status
      = .completed ∧
    (streamEndFallback now st).task.status = .canceled := by
  constructor
  · rw [processChunk, hbuf]
    have hsplit : jsSplitNl ("" ++ "event: done\ndata: x\n")
        = ["event: done", "data: x", ""] := rfl
    rw [hsplit]
    show (processLine jp sub now (processLine jp sub now
      { eventType := "", st := st } "event: done")
      "data: x").st.task.status = .completed
    rw [processLine_event_done]
    exact processLine_data_done jp sub now _ rfl
  · have hne : ¬ (st.task.status = .running) := by rw [hc]; decide
    rw [streamEndFallback, if_neg hne]
    exact hc

/-- C1 (witness for the amended theorem). -/
theorem done_event_overrides_canceled_witness :
    (processChunk jsonParseFail none 5 canceledMidStream
      "event: done\ndata: x\n").task.status = .completed ∧
    (streamEndFallback 5 canceledMidStream).task.status = .canceled :=
  done_event_overrides_canceled jsonParseFail none 5 canceledMidStream
    (by decide) (by decide)

/-! ### Claim C2 — delivery failure isolation -/

/-- A channel that defines `deliver` (as a GitHub-style oneshot channel
would). -/
def oneshotChannel : Channel :=
  { type := "demo-oneshot", defaultSkills := [], defaultMcpServers := [],
    hasDeliver := true }

/-- A fresh pending task for the dispatch runs below. -/
def pendingTask : TaskRecord :=
  { demoTask with
    status := .pending
    worker_id := none
    started_at := none }

/-- A dispatch environment in which the worker stream completes the task
with a single `done` event and `channel.deliver` then throws `"boom"`. -/
def deliverThrowsEnv : DispatchEnv :=
  { acquire := .ok { url := "http://w", containerId := "c-1" },
    prepareRes := .ok { ok := true, status := 200, text := "" },
    chatRes := .ok ({ ok := true, status := 200, text := "" },
      some ["event: done\ndata: x\n\n"]),
    deliverRes := .error "boom",
    jp := jsonParseFail, sub := none, now := 9 }

/-- C2 (counterexample): the task completes, `deliver` is invoked and
throws, and the dispatcher's top-level `catch` then overwrites the task:
status becomes `failed` (not `completed`) and `error` is set to the
delivery error. -/
theorem deliver_failure_not_isolated_counterexample :
    (dispatch deliverThrowsEnv oneshotChannel pendingTask).deliverCalled
      = true ∧
    (dispatch deliverThrowsEnv oneshotChannel pendingTask).task.status
      = .failed ∧
    (dispatch deliverThrowsEnv oneshotChannel pendingTask).task.status
      ≠ .completed ∧
    (dispatch deliverThrowsEnv oneshotChannel pendingTask).task.error
      = some "boom" := by
  decide

/-- C2 (amended): when a task reaches `completed` and the channel's
`deliver` throws, the exception lands in the dispatcher's top-level
`catch`: the task is rewritten to `failed` with the delivery error
recorded, and the push notification is skipped.  Delivery failure is not
isolated from task status. -/
theorem deliver_failure_marks_task_failed (env : DispatchEnv) (ch : Channel)
    (task : TaskRecord) (ep : Endpoint) (r : HttpResp)
    (body : Option (List String)) (m : String)
    (hacq : env.acquire = .ok ep)
    (hprep : prepareOutcome env task = none)
    (hchat : env.chatRes = .ok (r, body))
    (hrok : r.ok = true)
    (hdel : ch.hasDeliver = true)
    (hcomp : (handleWorkerStream env.jp env.sub env.now
      (runningUpdate env task ep) body).task.status = .completed)
    (hthrow : env.deliverRes = .error m) :
    (dispatch env ch task).task.status = .failed ∧
    (dispatch env ch task).task.error = some m ∧
    (dispatch env ch task).deliverCalled = true ∧
    (dispatch env ch task).pushCalled = false := by
  rw [dispatch, hacq]
  simp only [hprep, hchat, hrok, if_pos (And.intro hdel hcomp), hthrow]
  exact ⟨by simp [dispatchCatch, updateTask],
    by simp [dispatchCatch, updateTask], by simp [dispatchCatch],
    by simp [dispatchCatch]⟩

/-- C2 (witness for the amended theorem). -/
theorem deliver_failure_marks_task_failed_witness :
    (dispatch deliverThrowsEnv oneshotChannel pendingTask).task.status
      = .failed ∧
    (dispatch deliverThrowsEnv oneshotChannel pendingTask).task.error
      = some "boom" ∧
    (dispatch deliverThrowsEnv oneshotChannel pendingTask).deliverCalled
      = true ∧
    (dispatch deliverThrowsEnv oneshotChannel pendingTask).pushCalled
      = false :=
  deliver_failure_marks_task_failed deliverThrowsEnv oneshotChannel
    pendingTask { url := "http://w", containerId := "c-1" }
    { ok := true, status := 200, text := "" }
    (some ["event: done\ndata: x\n\n"]) "boom"
    (by rfl) (by decide) (by rfl) (by rfl) (by rfl) (by decide) (by rfl)

/-! ### Claim C3 — `hasMore` on the logs endpoint -/

/-- C3 (code bug, evaluated at the failing input): a task whose stream
produced two log rows (seqs 0 and 1).  The default read
(`after=0`, `limit=100`) returns the row with seq 1 — every row the
endpoint can ever return — yet `hasMore` is `true`, because the handler
compares the last seq (1) against the total row count (2), a check that is
only correct for 1-based seqs while the dispatcher assigns 0-based ones.
No row with seq > 1 exists. -/
theorem hasMore_true_when_drained :
    twoEventLogs.map LogEntry.seq = [0, 1] ∧
    (getLogsRoute twoEventLogs none none).logs.map LogEntry.seq = [1] ∧
    (getLogsRoute twoEventLogs none none).hasMore = true ∧
    twoEventLogs.filter (fun e => decide (1 < e.seq)) = [] := by
  decide

/-! ### Claim C4 — first log entry under the default `after=0` -/

/-- C4 (code bug, evaluated at the failing input): a task with a single
log row, which carries seq 0.  The default read (`after=0`) returns no
rows at all — `WHERE seq > 0` excludes the first row, so the entry with
seq 0 is unreachable through the API. -/
theorem first_entry_unreachable :
    oneEventLogs.map LogEntry.seq = [0] ∧
    (getLogsRoute oneEventLogs none none).logs = [] ∧
    (getLogsRoute oneEventLogs none none).hasMore = false := by
  decide

/-! ### Claim C5 — dense 0-based seqs -/

/-- C5: for any worker stream consumed by one `handleWorkerStream` run,
the persisted log rows carry exactly the seqs `0, 1, …, n-1` in stream
order: dense, strictly increasing, no gaps, no duplicates. -/
theorem stream_logs_seq_dense (jp : JsonParse) (sub : Subscriber)
    (now : Nat) (task : TaskRecord) (body : Option (List String)) :
    (handleWorkerStream jp sub now task body).logs.map LogEntry.seq
      = List.range (handleWorkerStream jp sub now task body).logs.length := by
  cases body with
  | none => rfl
  | some chunks =>
    have h : SeqInv (chunks.foldl (processChunk jp sub now)
        (initStreamState task)) :=
      foldl_preserve SeqInv (processChunk jp sub now)
        (fun s a hs => processChunk_seqInv jp sub now s a hs) chunks
        (initStreamState task) ⟨rfl, rfl⟩
    rw [handleWorkerStream, streamEndFallback_logs]
    exact h.2

/-! ### Claim C7 — persistence is independent of the subscriber -/

/-- C7: the log rows persisted for a task (and its final task row) are the
same for *any* two subscriber behaviours — attached and open throughout,
absent, or closing at any point mid-stream.  The subscriber check only
gates the forwarded frames. -/
theorem persistence_independent_of_subscriber (jp : JsonParse) (now : Nat)
    (task : TaskRecord) (body : Option (List String))
    (sub1 sub2 : Subscriber) :
    (handleWorkerStream jp sub1 now task body).logs
      = (handleWorkerStream jp sub2 now task body).logs ∧
    (handleWorkerStream jp sub1 now task body).task
      = (handleWorkerStream jp sub2 now task body).task := by
  cases body with
  | none => exact ⟨rfl, rfl⟩
  | some chunks =>
    have h : coreEq
        (chunks.foldl (processChunk jp sub1 now) (initStreamState task))
        (chunks.foldl (processChunk jp sub2 now) (initStreamState task)) :=
      foldl_rel coreEq (processChunk jp sub1 now) (processChunk jp sub2 now)
        (fun s t c hst => processChunk_coreEq jp sub1 sub2 now s t c hst)
        chunks (initStreamState task) (initStreamState task)
        ⟨rfl, rfl, rfl, rfl, rfl⟩
    have h2 := streamEndFallback_coreEq now _ _ h
    exact ⟨h2.2.2.2.2, h2.2.2.2.1⟩

/-! ### Claim C6 — prepare failure short-circuit -/

/-- C6: for a task with skills or MCP configs whose `/prepare` call returns
a non-success response, the dispatcher fails the task with the worker's
response text embedded in the error, and neither `channel.deliver` nor the
push notification is invoked. -/
theorem prepare_failure_short_circuits (env : DispatchEnv) (ch : Channel)
    (task : TaskRecord) (ep : Endpoint) (r : HttpResp)
    (hacq : env.acquire = .ok ep)
    (hne : task.skills ≠ [] ∨ task.mcp_servers ≠ [])
    (hpr : env.prepareRes = .ok r)
    (hok : r.ok = false) :
    (dispatch env ch task).task.status = .failed ∧
    (dispatch env ch task).task.error
      = some (prepareFailMsg r.status r.text) ∧
    (dispatch env ch task).deliverCalled = false ∧
    (dispatch env ch task).pushCalled = false ∧
    ∃ p, prepareFailMsg r.status r.text = p ++ r.text := by
  have hout : prepareOutcome env task
      = some (prepareFailMsg r.status r.text) := by
    rw [prepareOutcome, if_pos hne, hpr]
    simp [hok]
  rw [dispatch, hacq]
  simp only [hout]
  exact ⟨by simp [dispatchCatch, updateTask],
    by simp [dispatchCatch, updateTask], by simp [dispatchCatch],
    by simp [dispatchCatch],
    ⟨"Worker /prepare failed: " ++ toString r.status ++ " ", rfl⟩⟩

/-- A task that requests one skill. -/
def skilledTask : TaskRecord :=
  { pendingTask with skills := ["web-search"] }

/-- A dispatch environment whose `/prepare` returns a 500 with body
`"skill install exploded"`; the rest of the pipeline is never reached. -/
def prepare500Env : DispatchEnv :=
  { acquire := .ok { url := "http://w", containerId := "c-1" },
    prepareRes := .ok { ok := false, status := 500, text := "skill install exploded" },
    chatRes := .error "never reached",
    deliverRes := .ok (),
    jp := jsonParseFail, sub := none, now := 9 }

/-- C6 (witness). -/
theorem prepare_failure_short_circuits_witness :
    (dispatch prepare500Env oneshotChannel skilledTask).task.status
      = .failed ∧
    (dispatch prepare500Env oneshotChannel skilledTask).task.error
      = some (prepareFailMsg 500 "skill install exploded") ∧
    (dispatch prepare500Env oneshotChannel skilledTask).deliverCalled
      = false ∧
    (dispatch prepare500Env oneshotChannel skilledTask).pushCalled
      = false ∧
    ∃ p, prepareFailMsg 500 "skill install exploded"
      = p ++ "skill install exploded" :=
  prepare_failure_short_circuits prepare500Env oneshotChannel skilledTask
    { url := "http://w", containerId := "c-1" }
    { ok := false, status := 500, text := "skill install exploded" }
    (by rfl) (by decide) (by rfl) (by rfl)

/-! ### Claim C8 — channel-defaults merge -/

/-- A webhook channel with non-trivial defaults, for the C8 witness. -/
def defaultsChannel : Channel :=
  { type := "demo-defaults",
    defaultSkills := ["d1", "d2"],
    defaultMcpServers := [{ name := "m0", transport := "stdio" }],
    hasDeliver := true }

/-- A translated webhook request carrying its own skills and configs. -/
def webhookReq : TaskRequest :=
  { sessionId := "sess-9", channelType := "demo-defaults",
    channelMeta := "{}", message := "run",
    skills := ["r1"],
    mcpServers := [{ name := "m1", transport := "sse" }],
    pushNotification := none }

/-- A dispatch environment with no worker available, behind the chat
environment below (its dispatch outcome is irrelevant to C8/C9). -/
def noWorkerEnv : DispatchEnv :=
  { acquire := .error "no worker", prepareRes := .error "n/a",
    chatRes := .error "n/a", deliverRes := .ok (),
    jp := jsonParseFail, sub := none, now := 9 }

/-- A chat environment for the C8/C9 witnesses: socket open throughout. -/
def chatEnv : ChatEnv :=
  { freshId := "sess-new", taskId := "task-9",
    wsOpen := fun _ => true, denv := noWorkerEnv }

/-- C8: on both ingress paths the stored lists are the channel defaults
followed by the request lists, order preserved, and an empty request list
leaves exactly the defaults. -/
theorem channel_defaults_merge (id : String) (now : Nat) (ch : Channel)
    (req : TaskRequest) (env : ChatEnv) (msg : ClientMessage)
    (hm : jsFalsy msg.message = false) :
    (webhookCreateTask id now ch req).skills
      = ch.defaultSkills ++ req.skills ∧
    (webhookCreateTask id now ch req).mcp_servers
      = ch.defaultMcpServers ++ req.mcpServers ∧
    (req.skills = [] →
      (webhookCreateTask id now ch req).skills = ch.defaultSkills) ∧
    (req.mcpServers = [] →
      (webhookCreateTask id now ch req).mcp_servers
        = ch.defaultMcpServers) ∧
    ((handleChat env msg).createdTask.map TaskRecord.skills)
      = some (webChatChannel.defaultSkills ++ msg.skills.getD []) ∧
    ((handleChat env msg).createdTask.map TaskRecord.mcp_servers)
      = some (webChatChannel.defaultMcpServers ++ msg.mcp_servers.getD []) := by
  have hreq : webChatToTaskRequest msg = some
      { sessionId := msg.session_id.getD "", channelType := "webchat",
        channelMeta := "{}", message := msg.message.getD "",
        skills := msg.skills.getD [],
        mcpServers := msg.mcp_servers.getD [],
        pushNotification := none } := by
    rw [webChatToTaskRequest, if_neg (by rw [hm]; decide)]
  refine ⟨rfl, rfl, fun h => by simp [webhookCreateTask, createTask, h],
    fun h => by simp [webhookCreateTask, createTask, h], ?_, ?_⟩ <;>
  · rw [handleChat, if_neg (by rw [hm]; decide)]
    simp only [hreq]
    rfl

/-- A chat frame carrying its own skill list, for the C8 witness. -/
def skillChatMsg : ClientMessage :=
  { type := "chat", session_id := some "sess-1", message := some "hi",
    skills := some ["s1"], mcp_servers := none }

/-- C8 (witness): exercised on the webhook channel with defaults and on a
chat frame with its own skills (and again with empty request lists via the
implications). -/
theorem channel_defaults_merge_witness :
    (webhookCreateTask "task-9" 9 defaultsChannel webhookReq).skills
      = defaultsChannel.defaultSkills ++ webhookReq.skills ∧
    (webhookCreateTask "task-9" 9 defaultsChannel webhookReq).mcp_servers
      = defaultsChannel.defaultMcpServers ++ webhookReq.mcpServers ∧
    (webhookReq.skills = [] →
      (webhookCreateTask "task-9" 9 defaultsChannel webhookReq).skills
        = defaultsChannel.defaultSkills) ∧
    (webhookReq.mcpServers = [] →
      (webhookCreateTask "task-9" 9 defaultsChannel webhookReq).mcp_servers
        = defaultsChannel.defaultMcpServers) ∧
    ((handleChat chatEnv skillChatMsg).createdTask.map TaskRecord.skills)
      = some (webChatChannel.defaultSkills ++ ["s1"]) ∧
    ((handleChat chatEnv skillChatMsg).createdTask.map
        TaskRecord.mcp_servers)
      = some (webChatChannel.defaultMcpServers ++ []) :=
  channel_defaults_merge "task-9" 9 defaultsChannel webhookReq chatEnv
    skillChatMsg (by decide)

/-! ### Claim C9 — session creation precedes message validation -/

/-- C9: a chat frame with no (or empty) `session_id` and a missing or
empty `message` still inserts a new session row — with no task — and the
open socket receives `session_created` followed by the `Empty message`
error frame, in that order. -/
theorem session_created_before_validation (env : ChatEnv)
    (msg : ClientMessage)
    (hs : jsFalsy msg.session_id = true)
    (hm : jsFalsy msg.message = true)
    (h0 : env.wsOpen 0 = true) (h1 : env.wsOpen 1 = true) :
    (handleChat env msg).sessions = [(env.freshId, "webchat")] ∧
    (handleChat env msg).createdTask = none ∧
    (handleChat env msg).dres = none ∧
    (handleChat env msg).frames
      = [{ type := "session_created", session_id := some env.freshId },
         { type := "error", content := some "Empty message" }] := by
  rw [handleChat]
  simp only [hs, hm, if_true, wsSendChecked]
  simp [h0, h1]

/-- C9 (witness): a chat frame with neither `session_id` nor `message`.  -/
theorem session_created_before_validation_witness :
    (handleChat chatEnv { type := "chat" }).sessions
      = [("sess-new", "webchat")] ∧
    (handleChat chatEnv { type := "chat" }).createdTask = none ∧
    (handleChat chatEnv { type := "chat" }).dres = none ∧
    (handleChat chatEnv { type := "chat" }).frames
      = [{ type := "session_created", session_id := some "sess-new" },
         { type := "error", content := some "Empty message" }] :=
  session_created_before_validation chatEnv { type := "chat" }
    rfl rfl rfl rfl

/-! ### Claim C10 — skipped `data:` lines -/

/-- C10: a `data:` line whose payload is empty after trimming, or that is
not preceded by a non-empty `event:` line, is skipped in full: the state —
log rows, `seq` counter, subscriber frames, task status, buffered
`eventType` — is exactly unchanged. -/
theorem invalid_data_line_skipped (jp : JsonParse) (sub : Subscriber)
    (now : Nat) (ls : LineState) (line : String)
    (hd : jsStartsWith line "data:" = true)
    (hne : jsStartsWith line "event:" = false)
    (h : ls.eventType = "" ∨ jsTrim (jsSlice line 5) = "") :
    processLine jp sub now ls line = ls := by
  rw [processLine, if_neg (by simp [hne]), if_pos hd]
  dsimp only
  rw [if_pos h]

/-- C10 (witness): a `data:` line with a non-empty payload arriving with no
pending event type. -/
theorem invalid_data_line_skipped_witness :
    jsStartsWith "data: x" "data:" = true ∧
    jsStartsWith "data: x" "event:" = false ∧
    processLine jsonParseFail none 5
      { eventType := "", st := canceledMidStream } "data: x"
      = { eventType := "", st := canceledMidStream } :=
  ⟨by decide, by decide,
    invalid_data_line_skipped jsonParseFail none 5
      { eventType := "", st := canceledMidStream } "data: x"
      (by decide) (by decide) (Or.inl rfl)⟩

end AnyWork
